import Mathlib

/-!
Verification development for the Spinly recommendation backend.

The definitions below are a shallow embedding of the Python sources:
  - `Backend/app/services/recommendation_service.py` (similarity scoring,
    base-release resolution, candidate aggregation, track extraction and
    the job-updating pipeline wrapper),
  - `Backend/app/services/job_service.py` (job record updates),
  - `Backend/app/api/jobs.py` (job result endpoint),
  - `Backend/app/services/music_data_service.py` (get-or-create hydration).

Database sessions, the Discogs HTTP client and logging are collaborators;
their observable outcomes (query results, per-call fetch outcomes, fault
injections for flush/commit) are passed in explicitly as data.  Python
floats are modelled as rationals (`ℚ`); all constants involved are exactly
representable.  Python truthiness on optional columns (`if x and y:`) is
modelled field by field: integer `0`, the empty string and the empty list
are falsy.
-/

deriving instance DecidableEq for Except

namespace Spinly

/-- `app/models/release.py`: one row of the `releases` table, with the
`styles` array and the `artist_id` foreign key.  `year`, `label` and
`artist_id` are nullable columns. -/
structure Release where
  id : Nat
  discogs_id : Nat
  title : String
  year : Option Int
  label : Option String
  styles : List String
  artist_id : Option Nat
deriving DecidableEq, Repr

/-- `app/models/track.py`: one row of the `tracks` table; `artist_ids`
models the `track_artist` association rows of the track, in insertion
order. -/
structure Track where
  id : Nat
  title : String
  position : Option String
  release_id : Nat
  artist_ids : List Nat
deriving DecidableEq, Repr

/-- `app/models/artist.py`: one row of the `artists` table. -/
structure Artist where
  id : Nat
  name : String
  discogs_id : Option Nat
deriving DecidableEq, Repr

/-! ### Similarity scoring (`recommendation_service.py`, lines 21-74) -/

/-- `WEIGHT_STYLE = 4.0` -/
def WEIGHT_STYLE : ℚ := 4

/-- `WEIGHT_LABEL = 2.5` -/
def WEIGHT_LABEL : ℚ := 5/2

/-- `WEIGHT_YEAR = 2.5` -/
def WEIGHT_YEAR : ℚ := 5/2

/-- `WEIGHT_ARTIST = 1.0` -/
def WEIGHT_ARTIST : ℚ := 1

/-- `STYLE_COMPLETENESS_BONUS = 2.0` -/
def STYLE_COMPLETENESS_BONUS : ℚ := 2

/-- `MIN_SCORE_FOR_CANDIDACY = 0.7` -/
def MIN_SCORE_FOR_CANDIDACY : ℚ := 7/10

/-- `DEFAULT_LIMIT_RELEASES_FOR_TRACK_COLLECTION = 10` -/
def DEFAULT_LIMIT_RELEASES_FOR_TRACK_COLLECTION : Nat := 10

/-- Python's `str.lower()`, modelled character by character (structural on
the character list, so that concrete instances evaluate in the kernel). -/
def strLower (s : String) : String :=
  String.mk (s.data.map Char.toLower)

/-- The Python set `set(s.lower() for s in l)`: lowercase then remove
duplicates. -/
def lowerStyleSet (l : List String) : List String :=
  (l.map strLower).dedup

/-- Style term of `calculate_release_similarity` (lines 43-55): Jaccard
similarity of the lowercase style sets times `WEIGHT_STYLE`, plus the
completeness bonus when the base's styles are a subset of the target's.
Guarded by Python truthiness of both style lists. -/
def styleTerm (base_release target_release : Release) : ℚ :=
  if base_release.styles ≠ [] ∧ target_release.styles ≠ [] then
    let base_styles_set := lowerStyleSet base_release.styles
    let target_styles_set := lowerStyleSet target_release.styles
    let intersection := (base_styles_set.filter
      (fun s => target_styles_set.contains s)).length
    let union := ((base_styles_set ++ target_styles_set).dedup).length
    if 0 < union then
      (intersection : ℚ) / (union : ℚ) * WEIGHT_STYLE +
        (if base_styles_set.all (fun s => target_styles_set.contains s) then
          STYLE_COMPLETENESS_BONUS
        else 0)
    else 0
  else 0

/-- Label term (lines 57-60): `WEIGHT_LABEL` when both labels are truthy
and equal case-insensitively. -/
def labelTerm (base_release target_release : Release) : ℚ :=
  match base_release.label, target_release.label with
  | some bl, some tl =>
    if bl ≠ "" ∧ tl ≠ "" ∧ strLower bl = strLower tl then WEIGHT_LABEL else 0
  | _, _ => 0

/-- Year term (lines 62-67): `max(0, 1 - |year difference| / 10.0)` times
`WEIGHT_YEAR` when both years are truthy (Python treats year `0` as
missing). -/
def yearTerm (base_release target_release : Release) : ℚ :=
  match base_release.year, target_release.year with
  | some by_, some ty =>
    if by_ ≠ 0 ∧ ty ≠ 0 then
      max 0 (1 - ((by_ - ty).natAbs : ℚ) / 10) * WEIGHT_YEAR
    else 0
  | _, _ => 0

/-- Artist term (lines 69-72): `WEIGHT_ARTIST` when both `artist_id`
values are truthy (non-null, non-zero) and equal. -/
def artistTerm (base_release target_release : Release) : ℚ :=
  match base_release.artist_id, target_release.artist_id with
  | some ba, some ta =>
    if ba ≠ 0 ∧ ta ≠ 0 ∧ ba = ta then WEIGHT_ARTIST else 0
  | _, _ => 0

/-- `calculate_release_similarity` (lines 39-74): the weighted sum of the
four independent terms. -/
def calculate_release_similarity (base_release target_release : Release) : ℚ :=
  styleTerm base_release target_release
    + labelTerm base_release target_release
    + yearTerm base_release target_release
    + artistTerm base_release target_release

/-! ### Base-release resolution (lines 76-97) -/

/-- One entry of the `results` array of a Discogs search response; only
the optional `id` field is consumed by the resolver. -/
structure SearchResult where
  id : Option Nat
deriving DecidableEq, Repr

/-- `app/core/exceptions.py`: the exception taxonomy observed by the
pipeline.  `notFound` is `NotFoundException`; `upstream` stands for any
other exception (e.g. `ExternalAPIError` from the Discogs client). -/
inductive Exc where
  | notFound (detail : String)
  | upstream (detail : String)
deriving DecidableEq, Repr

/-- `NotFoundException.__init__`: detail string
`f"{resource} with id {resource_id} not found"`. -/
def notFoundDetail (resource : String) (resource_id : String) : String :=
  resource ++ " with id " ++ resource_id ++ " not found"

/-- `find_base_release_discogs_id_for_track` (lines 76-97): the first
search result's `id` field is the canonical match; an empty result list,
or a first result without an `id`, raises `NotFoundException` carrying the
seed track title.  The search results for the built query are passed in as
data. -/
def find_base_release_discogs_id_for_track (track_title : String)
    (artist_name : Option String) (search_results : List SearchResult) :
    Except Exc Nat :=
  match search_results with
  | first_result :: _ =>
    match first_result.id with
    | some i => .ok i
    | none =>
      .error (.notFound (notFoundDetail "Discogs release for track" track_title))
  | [] =>
    .error (.notFound (notFoundDetail "Discogs release for track" track_title))

/-! ### Candidate aggregation (lines 99-237) -/

/-- `list.sort(key=lambda x: x[1], reverse=True)`: a stable sort by score
descending (Python's sort is stable, so ties keep first-insertion
order). -/
def sortByScoreDesc (l : List (Release × ℚ)) : List (Release × ℚ) :=
  l.mergeSort (fun a b => decide (b.2 ≤ a.2))

/-- `find_similar_releases_in_db` (lines 99-120): score every catalog
release other than the base against the base, keep those with
`score > min_score_threshold`, sort by score descending. -/
def find_similar_releases_in_db (base_release : Release)
    (all_db_releases : List Release) (min_score_threshold : ℚ) :
    List (Release × ℚ) :=
  sortByScoreDesc
    ((all_db_releases.filter (fun t => t.id != base_release.id)).filterMap
      (fun target_release =>
        let score := calculate_release_similarity base_release target_release
        if min_score_threshold < score then some (target_release, score)
        else none))

/-- `release_obj.id in all_candidates_map`: lookup in the id-keyed,
insertion-ordered candidate map (a Python dict, modelled as an
association list in insertion order). -/
def candLookup (all_candidates_map : List (Release × ℚ)) (i : Nat) :
    Option (Release × ℚ) :=
  all_candidates_map.find? (fun rs => rs.1.id == i)

/-- Lines 193-210 (the Discogs style-search candidate loop): each element
of `fetched` is the outcome of `get_or_create_release_with_tracks` for one
raw search item that passed the `id`/self filter — `none` when hydration
failed (the exception is caught and the candidate skipped) or returned a
falsy value.  A fetched release not yet in the map is scored and inserted
when `score >= MIN_SCORE_FOR_CANDIDACY`. -/
def addDiscogsCandidates (base_release : Release)
    (all_candidates_map : List (Release × ℚ)) (fetched : List (Option Release)) :
    List (Release × ℚ) :=
  match fetched with
  | [] => all_candidates_map
  | none :: rest => addDiscogsCandidates base_release all_candidates_map rest
  | some release_obj :: rest =>
    if (candLookup all_candidates_map release_obj.id).isNone then
      let score := calculate_release_similarity base_release release_obj
      if MIN_SCORE_FOR_CANDIDACY ≤ score then
        addDiscogsCandidates base_release
          (all_candidates_map ++ [(release_obj, score)]) rest
      else addDiscogsCandidates base_release all_candidates_map rest
    else addDiscogsCandidates base_release all_candidates_map rest

/-- Lines 221-226 (the local-catalog candidate loop): an already-scored
local candidate is added only when its id is not yet in the map; an entry
already present is kept unchanged. -/
def addLocalCandidates (all_candidates_map : List (Release × ℚ))
    (local_db_candidates : List (Release × ℚ)) : List (Release × ℚ) :=
  match local_db_candidates with
  | [] => all_candidates_map
  | rs :: rest =>
    if (candLookup all_candidates_map rs.1.id).isNone then
      addLocalCandidates (all_candidates_map ++ [rs]) rest
    else addLocalCandidates all_candidates_map rest

/-- Steps 2-3 of `get_track_recommendations` (lines 149-226): the Discogs
style-search source feeds the map first (skipped entirely when the base
release has no styles), then the local-catalog source. -/
def mergedCandidateMap (base_release : Release) (fetched : List (Option Release))
    (all_db_releases : List Release) : List (Release × ℚ) :=
  let after_discogs :=
    if base_release.styles ≠ [] then addDiscogsCandidates base_release [] fetched
    else []
  addLocalCandidates after_discogs
    (find_similar_releases_in_db base_release all_db_releases
      MIN_SCORE_FOR_CANDIDACY)

/-- Step 4 (lines 228-237): consolidate the map's values (insertion
order), sort by score descending, truncate to the configured number of
releases. -/
def top_releases_with_scores (base_release : Release)
    (fetched : List (Option Release)) (all_db_releases : List Release)
    (limit : Nat) : List (Release × ℚ) :=
  (sortByScoreDesc (mergedCandidateMap base_release fetched all_db_releases)).take
    limit

/-- Step 5 (lines 250-260): the single `SELECT ... WHERE tracks.release_id
IN top_release_ids` query, with no `ORDER BY`: it returns the matching
rows in the track store's own order. -/
def tracksForReleases (catalog_tracks : List Track) (top_release_ids : List Nat) :
    List Track :=
  catalog_tracks.filter (fun t => top_release_ids.contains t.release_id)

/-- The ordering §4.4 of the spec describes for track extraction, stated
from the spec's words for comparison with `tracksForReleases`: all tracks
of the top-ranked release first, then the next release's tracks, and so
on. -/
def specGroupedTracks (ranked_release_ids : List Nat)
    (catalog_tracks : List Track) : List Track :=
  ranked_release_ids.flatMap
    (fun i => catalog_tracks.filter (fun t => t.release_id == i))

/-! ### The pipeline (`get_track_recommendations`, lines 122-263) -/

/-- The collaborator outcomes one run of `get_track_recommendations`
observes: the base-search results, the outcome of hydrating the base
release (`Except` for a raised exception, `none` for a falsy return), the
per-item outcomes of hydrating the style-search results, the local catalog
of releases, and the track store. -/
structure PipelineEnv where
  base_search_results : List SearchResult
  base_hydration : Except Exc (Option Release)
  style_search_fetched : List (Option Release)
  all_db_releases : List Release
  catalog_tracks : List Track
deriving Repr

/-- `get_track_recommendations` (lines 122-263).  A `NotFoundException`
from the base-release resolution is caught (lines 138-140) and turns into
an empty result; an exception from the base hydration propagates; a falsy
base release yields an empty result; otherwise candidates are aggregated,
ranked, limited, and the top releases' tracks are collected. -/
def get_track_recommendations (env : PipelineEnv) (track_title : String)
    (artist_name : Option String) : Except Exc (List Track) :=
  match find_base_release_discogs_id_for_track track_title artist_name
      env.base_search_results with
  | .error (.notFound _) => .ok []
  | .error e => .error e
  | .ok _ =>
    match env.base_hydration with
    | .error e => .error e
    | .ok none => .ok []
    | .ok (some base_release) =>
      let top := top_releases_with_scores base_release env.style_search_fetched
        env.all_db_releases DEFAULT_LIMIT_RELEASES_FOR_TRACK_COLLECTION
      if top.isEmpty then .ok []
      else .ok (tracksForReleases env.catalog_tracks (top.map (fun rs => rs.1.id)))

/-! ### Jobs (`models/background_job.py`, `services/job_service.py`,
`services/recommendation_service.py` lines 266-312) -/

/-- `JobStatus` (`models/background_job.py`). -/
inductive JobStatus where
  | pending
  | running
  | completed
  | failed
deriving DecidableEq, Repr

/-- The string value of a `JobStatus` member. -/
def statusText : JobStatus → String
  | .pending => "pending"
  | .running => "running"
  | .completed => "completed"
  | .failed => "failed"

/-- The JSONB `result` payload a recommendation job stores: either
`{"track_ids": [...]}` (success) or `{"error": "..."}` (failure). -/
inductive JobPayload where
  | trackIds (ids : List Nat)
  | errorMsg (msg : String)
deriving DecidableEq, Repr

/-- The fields of a `BackgroundJob` row the claims are about. -/
structure Job where
  status : JobStatus
  result : Option JobPayload
deriving DecidableEq, Repr

/-- `JobUpdate` (`schemas/background_job.py`): an unset field (`none`) is
excluded by `model_dump(exclude_unset=True)` and leaves the column
untouched. -/
structure JobUpdate where
  status : Option JobStatus
  result : Option JobPayload
deriving DecidableEq, Repr

/-- The field loop of `JobService.update_job` (lines 39-41): each set
field of the update is written onto the job row; there is no transition
guard. -/
def update_job_apply (db_job : Job) (job_update : JobUpdate) : Job :=
  let j1 :=
    match job_update.status with
    | some s => { db_job with status := s }
    | none => db_job
  match job_update.result with
  | some r => { j1 with result := some r }
  | none => j1

/-- `JobService.update_job` (lines 33-45): `none` when the job id is
unknown, otherwise the updated row. -/
def update_job (db_job : Option Job) (job_update : JobUpdate) : Option Job :=
  match db_job with
  | none => none
  | some j => some (update_job_apply j job_update)

/-- The message of an exception, as `str(e)` renders it. -/
def excMessage : Exc → String
  | .notFound d => d
  | .upstream d => d

/-- `run_recommendation_pipeline_and_update_job` (lines 266-312): set the
job RUNNING, run the pipeline; on success set COMPLETED with the ordered
track ids, on any exception set FAILED with the captured message. -/
def run_recommendation_pipeline_and_update_job (env : PipelineEnv)
    (track_title : String) (artist_name : Option String) (job : Job) : Job :=
  let j1 := update_job_apply job { status := some .running, result := none }
  match get_track_recommendations env track_title artist_name with
  | .ok recommended_tracks =>
    update_job_apply j1
      { status := some .completed,
        result := some (.trackIds (recommended_tracks.map (fun t => t.id))) }
  | .error e =>
    update_job_apply j1
      { status := some .failed,
        result := some (.errorMsg
          ("An unexpected error occurred: " ++ excMessage e)) }

/-! ### Job result endpoint (`app/api/jobs.py`, lines 33-89) -/

/-- The HTTP error responses of `get_job_result_as_tracklist`:
`HTTPException(404)` and `HTTPException(422)` are distinct conditions. -/
inductive ApiError where
  | http404 (detail : String)
  | http422 (detail : String)
deriving DecidableEq, Repr

/-- The dict build `{track.id: track for track in similar_tracks}`: insert
at the key, a later track with the same id overwrites the value, keys keep
their first-insertion position. -/
def dictInsert (m : List (Nat × Track)) (k : Nat) (v : Track) :
    List (Nat × Track) :=
  if (m.find? (fun kv => kv.1 == k)).isSome then
    m.map (fun kv => if kv.1 == k then (k, v) else kv)
  else m ++ [(k, v)]

/-- The dict comprehension's left-to-right accumulation. -/
def buildTrackMapAux (m : List (Nat × Track)) : List Track → List (Nat × Track)
  | [] => m
  | t :: rest => buildTrackMapAux (dictInsert m t.id t) rest

/-- `track_map = {track.id: track for track in similar_tracks}`. -/
def buildTrackMap (similar_tracks : List Track) : List (Nat × Track) :=
  buildTrackMapAux [] similar_tracks

/-- `track_map[track_id]` via `track_id in track_map`. -/
def trackMapLookup (track_map : List (Nat × Track)) (k : Nat) : Option Track :=
  (track_map.find? (fun kv => kv.1 == k)).map (fun kv => kv.2)

/-- `get_job_result_as_tracklist` (lines 33-89): 404 for an unknown job;
422 while the job is not COMPLETED; 404 when a COMPLETED job's result is
falsy or has no `track_ids` key; otherwise the stored ids are resolved
against the track store and returned in stored order, ids that resolve to
no track silently dropped.  (The final reshaping into
`SimpleTrackRecommendation` objects is presentation and keeps the list as
is; the endpoint is modelled up to the ordered track list.) -/
def get_job_result_as_tracklist (job : Option Job)
    (catalog_tracks : List Track) : Except ApiError (List Track) :=
  match job with
  | none => .error (.http404 "Job not found.")
  | some j =>
    if j.status ≠ .completed then
      .error (.http422
        ("Job is not complete. Current status: " ++ statusText j.status ++ "."))
    else
      match j.result with
      | none =>
        .error (.http404 "Job completed but no track IDs were found in the result.")
      | some (.errorMsg _) =>
        .error (.http404 "Job completed but no track IDs were found in the result.")
      | some (.trackIds track_ids) =>
        if track_ids.isEmpty then .ok []
        else
          let similar_tracks :=
            catalog_tracks.filter (fun t => track_ids.contains t.id)
          let track_map := buildTrackMap similar_tracks
          .ok (track_ids.filterMap (fun track_id => trackMapLookup track_map track_id))

/-! ### Get-or-create hydration (`app/services/music_data_service.py`) -/

/-- One artist object of a Discogs release payload (`{"id": ..,
"name": ..}`); `id` may be absent or the placeholder `0`. -/
structure DiscogsArtistData where
  id : Option Nat
  name : String
deriving DecidableEq, Repr

/-- One tracklist item of a Discogs release payload; `type_` distinguishes
real tracks from headings. -/
structure DiscogsTrackData where
  type_ : String
  title : String
  position : Option String
  artists : List DiscogsArtistData
deriving DecidableEq, Repr

/-- A Discogs release payload, with the fields
`get_or_create_release_with_tracks` consumes (`labels` reduced to the
label names). -/
structure DiscogsReleaseData where
  title : Option String
  year : Option Int
  labels : List String
  styles : List String
  artists : List DiscogsArtistData
  tracklist : List DiscogsTrackData
deriving DecidableEq, Repr

/-- The local catalog tables hydration writes to, with the next
autoincrement value of each primary-key sequence. -/
structure Catalog where
  artists : List Artist
  releases : List Release
  tracks : List Track
  next_artist_id : Nat
  next_release_id : Nat
  next_track_id : Nat
deriving DecidableEq, Repr

/-- A database session: the committed catalog, and the pending state the
session's uncommitted transaction sees.  `commit` publishes the pending
state; `rollback` resets it to the committed one. -/
structure DbState where
  committed : Catalog
  pending : Catalog
deriving DecidableEq, Repr

/-- The collaborator outcomes of one `get_or_create_release_with_tracks`
call: the provider fetch outcome, a fault injection for each successive
`db.flush()` call (`none` = the flush succeeds; an exhausted list means
every further flush succeeds), and a fault injection for the final
`db.commit()`. -/
structure HydrationEnv where
  fetch_result : Except String DiscogsReleaseData
  flush_faults : List (Option String)
  commit_fault : Option String
deriving Repr

/-- Consume the outcome of the next `db.flush()` call. -/
def popFault (ff : List (Option String)) : Option String × List (Option String) :=
  match ff with
  | [] => (none, [])
  | f :: rest => (f, rest)

/-- Replace the stored row of an artist (an in-session attribute update). -/
def replaceArtist (c : Catalog) (updated : Artist) : Catalog :=
  { c with artists := c.artists.map (fun a => if a.id == updated.id then updated else a) }

/-- `get_or_create_artist` (`music_data_service.py`, lines 13-47): a
Discogs id of `0` is treated as null; look up by Discogs id, else by name
(backfilling a missing Discogs id), else create a new row (the `flush`
that assigns its id may fault). -/
def get_or_create_artist (artist_data : DiscogsArtistData) (c : Catalog)
    (ff : List (Option String)) :
    Except String (Artist × Catalog × List (Option String)) :=
  let discogs_id : Option Nat :=
    match artist_data.id with
    | some i => if i = 0 then none else some i
    | none => none
  match discogs_id.bind
      (fun i => c.artists.find? (fun a => a.discogs_id == some i)) with
  | some db_artist => .ok (db_artist, c, ff)
  | none =>
    match c.artists.find? (fun a => a.name == artist_data.name) with
    | some db_artist =>
      if db_artist.discogs_id = none ∧ discogs_id ≠ none then
        let updated := { db_artist with discogs_id := discogs_id }
        .ok (updated, replaceArtist c updated, ff)
      else .ok (db_artist, c, ff)
    | none =>
      match popFault ff with
      | (some msg, _) => .error msg
      | (none, ff1) =>
        let db_artist : Artist :=
          { id := c.next_artist_id, name := artist_data.name,
            discogs_id := discogs_id }
        .ok (db_artist,
          { c with artists := c.artists ++ [db_artist],
                   next_artist_id := c.next_artist_id + 1 }, ff1)

/-- `get_or_create_artist` applied to each artist of a tracklist item in
order, threading the catalog and the flush outcomes. -/
def getOrCreateArtistList (datas : List DiscogsArtistData) (c : Catalog)
    (ff : List (Option String)) :
    Except String (List Artist × Catalog × List (Option String)) :=
  match datas with
  | [] => .ok ([], c, ff)
  | d :: rest =>
    match get_or_create_artist d c ff with
    | .error e => .error e
    | .ok (a, c1, ff1) =>
      match getOrCreateArtistList rest c1 ff1 with
      | .error e => .error e
      | .ok (as_, c2, ff2) => .ok (a :: as_, c2, ff2)

/-- The tracklist loop (lines 105-123): for each item of type `track`,
get or create its artists (falling back to the release's main artist when
the item has none) and add the track row. -/
def createTracks (items : List DiscogsTrackData) (release_id : Nat)
    (main_artist_obj : Option Artist) (c : Catalog)
    (ff : List (Option String)) :
    Except String (Catalog × List (Option String)) :=
  match items with
  | [] => .ok (c, ff)
  | track_item :: rest =>
    if track_item.type_ = "track" then
      match getOrCreateArtistList track_item.artists c ff with
      | .error e => .error e
      | .ok (track_artists, c1, ff1) =>
        let artist_ids :=
          if track_item.artists ≠ [] then track_artists.map (fun a => a.id)
          else
            match main_artist_obj with
            | some ma => [ma.id]
            | none => []
        let new_track : Track :=
          { id := c1.next_track_id, title := track_item.title,
            position := track_item.position, release_id := release_id,
            artist_ids := artist_ids }
        createTracks rest release_id main_artist_obj
          { c1 with tracks := c1.tracks ++ [new_track],
                    next_track_id := c1.next_track_id + 1 } ff1
    else createTracks rest release_id main_artist_obj c ff

/-- The creation path of `get_or_create_release_with_tracks` (lines
82-127, before the commit): fetch the payload, get or create the main
artist, create the release row (its id-assigning `flush` may fault), then
create the tracks. -/
def buildNewRelease (discogs_release_id : Nat) (env : HydrationEnv)
    (c : Catalog) : Except String (Release × Catalog) :=
  match env.fetch_result with
  | .error e => .error e
  | .ok data =>
    let mainArtistStep :
        Except String (Option Artist × Catalog × List (Option String)) :=
      match data.artists with
      | main_artist_data :: _ =>
        match get_or_create_artist main_artist_data c env.flush_faults with
        | .error e => .error e
        | .ok (a, c1, ff1) => .ok (some a, c1, ff1)
      | [] => .ok (none, c, env.flush_faults)
    match mainArtistStep with
    | .error e => .error e
    | .ok (main_artist_obj, c1, ff1) =>
      match popFault ff1 with
      | (some msg, _) => .error msg
      | (none, ff2) =>
        let new_release : Release :=
          { id := c1.next_release_id, discogs_id := discogs_release_id,
            title := data.title.getD "Unknown Title", year := data.year,
            label := data.labels.head?, styles := data.styles,
            artist_id := main_artist_obj.map (fun a => a.id) }
        let c2 :=
          { c1 with releases := c1.releases ++ [new_release],
                    next_release_id := c1.next_release_id + 1 }
        match createTracks data.tracklist new_release.id main_artist_obj c2 ff2 with
        | .error e => .error e
        | .ok (c3, _) => .ok (new_release, c3)

/-- The job state machine §4.5/§9 of the spec describes, stated from the
spec's words for comparison with the embedded operations: the only allowed
transitions are PENDING→RUNNING, RUNNING→COMPLETED and RUNNING→FAILED. -/
def allowedEdge : JobStatus → JobStatus → Bool
  | .pending, .running => true
  | .running, .completed => true
  | .running, .failed => true
  | _, _ => false

/-- `get_or_create_release_with_tracks` (lines 60-134): return an
existing release untouched; otherwise run the creation path inside the
`try` block and commit, and on any exception roll the transaction back and
re-raise. -/
def get_or_create_release_with_tracks (discogs_release_id : Nat)
    (env : HydrationEnv) (s : DbState) : Except String Release × DbState :=
  match s.pending.releases.find? (fun r => r.discogs_id == discogs_release_id) with
  | some release => (.ok release, s)
  | none =>
    match buildNewRelease discogs_release_id env s.pending with
    | .error e => (.error e, { committed := s.committed, pending := s.committed })
    | .ok (new_release, c1) =>
      match env.commit_fault with
      | some msg =>
        (.error msg, { committed := s.committed, pending := s.committed })
      | none => (.ok new_release, { committed := c1, pending := c1 })

/-! ### Concrete instances used to evaluate the model -/

/-- A base release with styles `{a, b}` and year 2000. -/
def exBase : Release :=
  { id := 1, discogs_id := 101, title := "b", year := some 2000,
    label := none, styles := ["a", "b"], artist_id := none }

/-- A candidate sharing one of twenty lowercase styles with `exBase` and
eight years apart, so that its similarity against `exBase` is exactly
`4 * (1/20) + (1 - 8/10) * 2.5 = 0.7`. -/
def exBoundary : Release :=
  { id := 2, discogs_id := 102, title := "t", year := some 1992,
    label := none,
    styles := ["a", "c", "d", "e", "f", "g", "h", "i", "j", "k", "l", "m",
               "n", "o", "p", "q", "r", "s", "t"],
    artist_id := none }

/-- A pipeline environment whose base search returns no results. -/
def exEnvNoResults : PipelineEnv :=
  { base_search_results := [], base_hydration := .ok none,
    style_search_fetched := [], all_db_releases := [], catalog_tracks := [] }

/-- A freshly created job record. -/
def exPendingJob : Job := { status := .pending, result := none }

/-- A track of release 1, stored before `exTrackB`. -/
def exTrackA : Track :=
  { id := 1, title := "a", position := none, release_id := 1, artist_ids := [] }

/-- A track of release 2, stored after `exTrackA`. -/
def exTrackB : Track :=
  { id := 2, title := "b", position := none, release_id := 2, artist_ids := [] }

/-- A base release for the merge-policy scenario. -/
def exMergeBase : Release :=
  { id := 1, discogs_id := 101, title := "base", year := some 2000,
    label := some "L", styles := ["house"], artist_id := some 5 }

/-- The Discogs-source observation of release 2 (similarity 12 against
`exMergeBase`). -/
def exMergeDiscogs : Release :=
  { id := 2, discogs_id := 102, title := "r", year := some 2000,
    label := some "L", styles := ["house"], artist_id := some 5 }

/-- The local-catalog observation of the same release 2 with a different
year, hence a different similarity (47/4) against `exMergeBase`. -/
def exMergeLocal : Release :=
  { id := 2, discogs_id := 102, title := "rprime", year := some 1999,
    label := some "L", styles := ["house"], artist_id := some 5 }

/-- A hydration environment whose provider fetch raises. -/
def exEnvFetchFails : HydrationEnv :=
  { fetch_result := .error "boom", flush_faults := [], commit_fault := none }

/-- An empty catalog. -/
def exEmptyCatalog : Catalog :=
  { artists := [], releases := [], tracks := [],
    next_artist_id := 1, next_release_id := 1, next_track_id := 1 }

/-- A clean session over the empty catalog. -/
def exEmptyDb : DbState := { committed := exEmptyCatalog, pending := exEmptyCatalog }

/-- A COMPLETED job storing track ids `[2, 1, 99]`; id 99 resolves to no
track of the catalog `[exTrackA, exTrackB]`. -/
def exDoneJob : Job := { status := .completed, result := some (.trackIds [2, 1, 99]) }

/-- A COMPLETED job whose result payload is an error dict (no `track_ids`
key). -/
def exDoneJobNoIds : Job := { status := .completed, result := some (.errorMsg "x") }

/-- A COMPLETED job whose stored track-id list is empty. -/
def exDoneJobEmpty : Job := { status := .completed, result := some (.trackIds []) }

/-- A release with no styles, no label, year 1990 and artist 1. -/
def exDisjoint1 : Release :=
  { id := 1, discogs_id := 201, title := "x", year := some 1990,
    label := none, styles := [], artist_id := some 1 }

/-- A release with no styles, no label, year 2010 and artist 2: twenty
years away from `exDisjoint1` and sharing nothing with it. -/
def exDisjoint2 : Release :=
  { id := 2, discogs_id := 202, title := "y", year := some 2010,
    label := none, styles := [], artist_id := some 2 }

/-! ## Helper lemmas -/

/-- Appending entries to a candidate map cannot change an id that already
resolves. -/
theorem candLookup_append_some {m : List (Release × ℚ)} {i : Nat}
    {v : Release × ℚ} (l : List (Release × ℚ)) (h : candLookup m i = some v) :
    candLookup (m ++ l) i = some v := by
  unfold candLookup at h ⊢
  rw [List.find?_append, h]
  rfl

/-- The local-candidate loop never overwrites an id already in the map. -/
theorem candLookup_addLocal_some (cands : List (Release × ℚ))
    {m : List (Release × ℚ)} {i : Nat} {v : Release × ℚ}
    (h : candLookup m i = some v) :
    candLookup (addLocalCandidates m cands) i = some v := by
  induction cands generalizing m with
  | nil => simpa [addLocalCandidates] using h
  | cons c rest ih =>
    simp only [addLocalCandidates]
    split
    · exact ih (candLookup_append_some _ h)
    · exact ih h

/-- The Discogs-candidate loop never overwrites an id already in the
map. -/
theorem candLookup_addDiscogs_some (base_release : Release)
    (fetched : List (Option Release)) {m : List (Release × ℚ)} {i : Nat}
    {v : Release × ℚ} (h : candLookup m i = some v) :
    candLookup (addDiscogsCandidates base_release m fetched) i = some v := by
  induction fetched generalizing m with
  | nil => simpa [addDiscogsCandidates] using h
  | cons o rest ih =>
    cases o with
    | none => simp only [addDiscogsCandidates]; exact ih h
    | some r =>
      simp only [addDiscogsCandidates]
      split
      · split
        · exact ih (candLookup_append_some _ h)
        · exact ih h
      · exact ih h

/-! ## C1 -/

/-- C1, counterexample: with parameters `{trackTitle: "Nonexistent Song
XYZ", artistName: null}` and an external search returning no results, the
job ends COMPLETED, not FAILED. -/
theorem C1_counterexample :
    (run_recommendation_pipeline_and_update_job exEnvNoResults
        "Nonexistent Song XYZ" none exPendingJob).status = JobStatus.completed
    ∧ JobStatus.completed ≠ JobStatus.failed := by
  decide

/-- C1 (amended): when the external search returns no results for the
seed, base-release resolution raises NotFound carrying the seed title, but
`get_track_recommendations` catches it and returns an empty list, so the
job ends COMPLETED with an empty stored track-id list, not FAILED. -/
theorem C1_notfound_caught (env : PipelineEnv) (track_title : String)
    (artist_name : Option String) (job : Job)
    (h : env.base_search_results = []) :
    find_base_release_discogs_id_for_track track_title artist_name
        env.base_search_results
      = .error (.notFound (notFoundDetail "Discogs release for track" track_title))
    ∧ (run_recommendation_pipeline_and_update_job env track_title artist_name
        job).status = JobStatus.completed
    ∧ (run_recommendation_pipeline_and_update_job env track_title artist_name
        job).result = some (.trackIds []) := by
  refine ⟨?_, ?_, ?_⟩ <;>
    simp [run_recommendation_pipeline_and_update_job, get_track_recommendations,
      find_base_release_discogs_id_for_track, update_job_apply, h]

/-- C1, witness for the amended claim at the spec's concrete scenario. -/
theorem C1_witness :
    find_base_release_discogs_id_for_track "Nonexistent Song XYZ" none
        exEnvNoResults.base_search_results
      = .error (.notFound
          (notFoundDetail "Discogs release for track" "Nonexistent Song XYZ"))
    ∧ (run_recommendation_pipeline_and_update_job exEnvNoResults
        "Nonexistent Song XYZ" none exPendingJob).status = JobStatus.completed
    ∧ (run_recommendation_pipeline_and_update_job exEnvNoResults
        "Nonexistent Song XYZ" none exPendingJob).result
      = some (.trackIds []) :=
  C1_notfound_caught exEnvNoResults "Nonexistent Song XYZ" none exPendingJob rfl

/-! ## C4 -/

/-- C4, counterexample: `update_job` has no transition guard, so a single
update moves a COMPLETED (terminal) job back to RUNNING. -/
theorem C4_counterexample :
    (update_job_apply
        { status := JobStatus.completed, result := some (JobPayload.trackIds []) }
        { status := some JobStatus.running, result := none }).status
      = JobStatus.running
    ∧ JobStatus.running ≠ JobStatus.completed := by
  decide

/-- C4 (amended): `update_job` applies any requested status
unconditionally, so arbitrary update sequences can leave the spec's state
machine (see the counterexample); the orchestrator itself, run on a
PENDING job, performs only the allowed transitions PENDING→RUNNING and
RUNNING→COMPLETED/FAILED, and ends in a terminal status. -/
theorem C4_orchestrator_transitions (env : PipelineEnv) (track_title : String)
    (artist_name : Option String) (job : Job) (h : job.status = .pending) :
    allowedEdge job.status
        (update_job_apply job { status := some .running, result := none }).status
      = true
    ∧ allowedEdge
        (update_job_apply job { status := some .running, result := none }).status
        (run_recommendation_pipeline_and_update_job env track_title artist_name
          job).status
      = true
    ∧ ((run_recommendation_pipeline_and_update_job env track_title artist_name
          job).status = JobStatus.completed
       ∨ (run_recommendation_pipeline_and_update_job env track_title artist_name
          job).status = JobStatus.failed) := by
  have h1 : (update_job_apply job
      { status := some .running, result := none }).status = JobStatus.running := by
    simp [update_job_apply]
  have h2 : (run_recommendation_pipeline_and_update_job env track_title
        artist_name job).status = JobStatus.completed
      ∨ (run_recommendation_pipeline_and_update_job env track_title
        artist_name job).status = JobStatus.failed := by
    cases hres : get_track_recommendations env track_title artist_name with
    | ok tracks =>
      left
      simp [run_recommendation_pipeline_and_update_job, hres, update_job_apply]
    | error e =>
      right
      simp [run_recommendation_pipeline_and_update_job, hres, update_job_apply]
  refine ⟨?_, ?_, h2⟩
  · rw [h, h1]; rfl
  · rw [h1]
    rcases h2 with h2 | h2 <;> rw [h2] <;> rfl

/-- C4, witness for the amended claim on a concrete pending job. -/
theorem C4_witness :
    allowedEdge exPendingJob.status
        (update_job_apply exPendingJob
          { status := some .running, result := none }).status = true
    ∧ allowedEdge
        (update_job_apply exPendingJob
          { status := some .running, result := none }).status
        (run_recommendation_pipeline_and_update_job exEnvNoResults "t" none
          exPendingJob).status = true
    ∧ ((run_recommendation_pipeline_and_update_job exEnvNoResults "t" none
          exPendingJob).status = JobStatus.completed
       ∨ (run_recommendation_pipeline_and_update_job exEnvNoResults "t" none
          exPendingJob).status = JobStatus.failed) :=
  C4_orchestrator_transitions exEnvNoResults "t" none exPendingJob rfl

/-! ## C7 -/

/-- C7: when both sources produce the same internal release id, the pair
first inserted into the id-keyed map (here: by the Discogs source, which
runs first) is the one the merged map resolves that id to; whatever the
local source later observes for that id — any score, any hydration state —
is silently discarded. -/
theorem C7_first_insertion_wins (base_release : Release)
    (fetched : List (Option Release)) (all_db_releases : List Release)
    (r : Release) (s : ℚ) (hstyles : base_release.styles ≠ [])
    (h : candLookup (addDiscogsCandidates base_release [] fetched) r.id
      = some (r, s)) :
    candLookup (mergedCandidateMap base_release fetched all_db_releases) r.id
      = some (r, s) := by
  unfold mergedCandidateMap
  rw [if_pos hstyles]
  exact candLookup_addLocal_some _ h

unseal Rat.mul Rat.add Rat.inv Rat.sub in
/-- C7, witness: release 2 enters the map from the Discogs source with
score 12; the local source sees the same id with score 47/4, and the
merged map still holds the first pair. -/
theorem C7_witness :
    calculate_release_similarity exMergeBase exMergeLocal = 47/4
    ∧ candLookup (mergedCandidateMap exMergeBase [some exMergeDiscogs]
        [exMergeLocal]) 2 = some (exMergeDiscogs, 12) := by
  have h1 : candLookup (addDiscogsCandidates exMergeBase [] [some exMergeDiscogs]) 2
      = some (exMergeDiscogs, 12) := by decide
  exact ⟨by decide,
    C7_first_insertion_wins exMergeBase [some exMergeDiscogs] [exMergeLocal]
      exMergeDiscogs 12 (by decide) h1⟩

/-! ## C3 -/

unseal Rat.mul Rat.add Rat.inv Rat.sub List.merge List.mergeSort in
/-- C3, counterexample: a candidate scoring exactly 0.7 against the base
is admitted by the external-provider filter (`score >=
MIN_SCORE_FOR_CANDIDACY`) yet rejected by the local-catalog filter, which
the pipeline also runs at `MIN_SCORE_FOR_CANDIDACY` (strictly): the
external threshold is not strictly higher than the local one — the two
constants are equal. -/
theorem C3_counterexample :
    MIN_SCORE_FOR_CANDIDACY = 7/10
    ∧ calculate_release_similarity exBase exBoundary = 7/10
    ∧ addDiscogsCandidates exBase [] [some exBoundary] = [(exBoundary, 7/10)]
    ∧ find_similar_releases_in_db exBase [exBoundary] MIN_SCORE_FOR_CANDIDACY
      = [] := by
  refine ⟨by decide, by decide, by decide, by decide⟩

/-- C3 (amended): both sources are filtered at the single constant
`MIN_SCORE_FOR_CANDIDACY = 0.7`: the external source keeps a candidate iff
its score is `>= 0.7`, the local source (as invoked by the pipeline) iff
its score is `> 0.7` — there is no lower local threshold such as 0.6. -/
theorem C3_same_threshold (base_release target_release : Release)
    (hid : target_release.id ≠ base_release.id) :
    (addDiscogsCandidates base_release [] [some target_release]
      = if MIN_SCORE_FOR_CANDIDACY
            ≤ calculate_release_similarity base_release target_release then
          [(target_release,
            calculate_release_similarity base_release target_release)]
        else [])
    ∧ ((target_release,
          calculate_release_similarity base_release target_release)
          ∈ find_similar_releases_in_db base_release [target_release]
              MIN_SCORE_FOR_CANDIDACY
        ↔ MIN_SCORE_FOR_CANDIDACY
            < calculate_release_similarity base_release target_release) := by
  constructor
  · by_cases hle : MIN_SCORE_FOR_CANDIDACY
        ≤ calculate_release_similarity base_release target_release <;>
      simp [addDiscogsCandidates, candLookup, hle]
  · by_cases hlt : MIN_SCORE_FOR_CANDIDACY
        < calculate_release_similarity base_release target_release <;>
      simp [find_similar_releases_in_db, sortByScoreDesc, hid, hlt,
        List.mergeSort_nil, List.mergeSort_singleton, bne_iff_ne]

unseal Rat.mul Rat.add Rat.inv Rat.sub in
/-- C3, witness for the amended claim at the boundary-scoring pair. -/
theorem C3_witness :
    (addDiscogsCandidates exBase [] [some exBoundary]
      = if MIN_SCORE_FOR_CANDIDACY
            ≤ calculate_release_similarity exBase exBoundary then
          [(exBoundary, calculate_release_similarity exBase exBoundary)]
        else [])
    ∧ ((exBoundary, calculate_release_similarity exBase exBoundary)
          ∈ find_similar_releases_in_db exBase [exBoundary]
              MIN_SCORE_FOR_CANDIDACY
        ↔ MIN_SCORE_FOR_CANDIDACY
            < calculate_release_similarity exBase exBoundary) :=
  C3_same_threshold exBase exBoundary (by decide)

/-! ## C10 -/

/-- C10: on a COMPLETED job, a null result or a result without the
`track_ids` key yields a 404 error (a condition distinct from the 422
"not ready" one), while a present-but-empty `track_ids` list yields an
empty recommendation list. -/
theorem C10_completed_result_payloads (job : Job) (catalog_tracks : List Track)
    (h : job.status = .completed) :
    (job.result = none →
      get_job_result_as_tracklist (some job) catalog_tracks
        = .error (.http404 "Job completed but no track IDs were found in the result."))
    ∧ (∀ msg, job.result = some (.errorMsg msg) →
      get_job_result_as_tracklist (some job) catalog_tracks
        = .error (.http404 "Job completed but no track IDs were found in the result."))
    ∧ (job.result = some (.trackIds []) →
      get_job_result_as_tracklist (some job) catalog_tracks = .ok [])
    ∧ (∀ d1 d2, ApiError.http404 d1 ≠ ApiError.http422 d2) := by
  refine ⟨?_, ?_, ?_, by simp⟩ <;>
    intros <;>
    simp_all [get_job_result_as_tracklist]

/-- C10, witness: the three payload shapes at concrete COMPLETED jobs. -/
theorem C10_witness :
    get_job_result_as_tracklist (some exDoneJobNoIds) [exTrackA]
      = .error (.http404 "Job completed but no track IDs were found in the result.")
    ∧ get_job_result_as_tracklist (some exDoneJobEmpty) [exTrackA] = .ok [] :=
  ⟨(C10_completed_result_payloads exDoneJobNoIds [exTrackA] rfl).2.1 "x" rfl,
   (C10_completed_result_payloads exDoneJobEmpty [exTrackA] rfl).2.2.1 rfl⟩

/-! ## C8 -/

/-- The year term vanishes once the year difference reaches ten years. -/
theorem yearTerm_zero_of_ge_ten (b t : Release) (y1 y2 : Int)
    (hb : b.year = some y1) (ht : t.year = some y2)
    (hd : 10 ≤ (y1 - y2).natAbs) : yearTerm b t = 0 := by
  simp only [yearTerm, hb, ht]
  split
  · have h10 : (10 : ℚ) ≤ (((y1 - y2).natAbs : ℚ)) := by exact_mod_cast hd
    have hle : (1 : ℚ) - ((y1 - y2).natAbs : ℚ) / 10 ≤ 0 := by linarith
    rw [max_eq_left hle, zero_mul]
  · rfl

/-- The style term vanishes when no style of the base matches a style of
the target case-insensitively. -/
theorem styleTerm_zero_of_disjoint (b t : Release)
    (hstyles : ∀ s1 ∈ b.styles, ∀ s2 ∈ t.styles, strLower s1 ≠ strLower s2) :
    styleTerm b t = 0 := by
  have hdisj : ∀ s ∈ lowerStyleSet b.styles, s ∉ lowerStyleSet t.styles := by
    intro s hs hmem
    rw [lowerStyleSet, List.mem_dedup, List.mem_map] at hs hmem
    obtain ⟨s1, hs1, rfl⟩ := hs
    obtain ⟨s2, hs2, heq⟩ := hmem
    exact hstyles s1 hs1 s2 hs2 heq.symm
  unfold styleTerm
  split
  · next hc =>
    have hbs_ne : lowerStyleSet b.styles ≠ [] := by
      intro hnil
      rw [lowerStyleSet, List.dedup_eq_nil, List.map_eq_nil_iff] at hnil
      exact hc.1 hnil
    have hnall : ¬ ∀ x ∈ lowerStyleSet b.styles, x ∈ lowerStyleSet t.styles := by
      intro hsub
      obtain ⟨s0, hs0⟩ := List.exists_mem_of_ne_nil _ hbs_ne
      exact hdisj s0 hs0 (hsub s0 hs0)
    have hfilter : List.filter (fun s => decide (s ∈ lowerStyleSet t.styles))
        (lowerStyleSet b.styles) = [] := by
      rw [List.filter_eq_nil_iff]
      intro a ha
      simpa using hdisj a ha
    simp [hfilter, hnall]
  · rfl

/-- C8: under disjoint (case-insensitive) style sets, non-matching
labels, a year gap of at least ten years and distinct primary-artist ids,
the similarity score is zero; and the year term is `max(0, 1 - |Δyear| /
10) * WEIGHT_YEAR` when both years are truthy, vanishing when either year
is unknown or the gap reaches ten years. -/
theorem C8_zero_similarity :
    (∀ b t : Release,
      (∀ s1 ∈ b.styles, ∀ s2 ∈ t.styles, strLower s1 ≠ strLower s2) →
      (∀ bl tl, b.label = some bl → t.label = some tl →
        strLower bl ≠ strLower tl) →
      (∀ y1 y2 : Int, b.year = some y1 → t.year = some y2 →
        10 ≤ (y1 - y2).natAbs) →
      (∀ a1 a2 : Nat, b.artist_id = some a1 → t.artist_id = some a2 →
        a1 ≠ a2) →
      calculate_release_similarity b t = 0)
    ∧ (∀ b t : Release, ∀ y1 y2 : Int, b.year = some y1 → y1 ≠ 0 →
        t.year = some y2 → y2 ≠ 0 →
        yearTerm b t = max 0 (1 - ((y1 - y2).natAbs : ℚ) / 10) * WEIGHT_YEAR)
    ∧ (∀ b t : Release, b.year = none ∨ t.year = none → yearTerm b t = 0)
    ∧ (∀ b t : Release, ∀ y1 y2 : Int, b.year = some y1 → t.year = some y2 →
        10 ≤ (y1 - y2).natAbs → yearTerm b t = 0) := by
  refine ⟨?_, ?_, ?_, yearTerm_zero_of_ge_ten⟩
  · intro b t hstyles hlabel hyear hartist
    have h1 : styleTerm b t = 0 := styleTerm_zero_of_disjoint b t hstyles
    have h2 : labelTerm b t = 0 := by
      unfold labelTerm
      cases hb : b.label with
      | none => rfl
      | some bl =>
        cases ht : t.label with
        | none => rfl
        | some tl =>
          have hne : ¬(bl ≠ "" ∧ tl ≠ "" ∧ strLower bl = strLower tl) := by
            rintro ⟨-, -, heq⟩
            exact hlabel bl tl hb ht heq
          simp [hne]
    have h3 : yearTerm b t = 0 := by
      cases hb : b.year with
      | none => simp [yearTerm, hb]
      | some y1 =>
        cases ht : t.year with
        | none => simp [yearTerm, hb, ht]
        | some y2 => exact yearTerm_zero_of_ge_ten b t y1 y2 hb ht (hyear y1 y2 hb ht)
    have h4 : artistTerm b t = 0 := by
      unfold artistTerm
      cases hb : b.artist_id with
      | none => rfl
      | some a1 =>
        cases ht : t.artist_id with
        | none => rfl
        | some a2 =>
          have hne : ¬(a1 ≠ 0 ∧ a2 ≠ 0 ∧ a1 = a2) := by
            rintro ⟨-, -, heq⟩
            exact hartist a1 a2 hb ht heq
          simp [hne]
    rw [calculate_release_similarity, h1, h2, h3, h4]
    norm_num
  · intro b t y1 y2 hb hy1 ht hy2
    simp [yearTerm, hb, ht, hy1, hy2]
  · intro b t h
    rcases h with h | h
    · simp [yearTerm, h]
    · cases hb : b.year <;> simp [yearTerm, hb, h]

/-- C8, witness: two releases with no shared styles, no labels, years
1990 and 2010 and artists 1 and 2 score zero. -/
theorem C8_witness : calculate_release_similarity exDisjoint1 exDisjoint2 = 0 :=
  C8_zero_similarity.1 exDisjoint1 exDisjoint2
    (by simp [exDisjoint1])
    (by simp [exDisjoint1])
    (by intro y1 y2 h1 h2
        simp [exDisjoint1] at h1
        simp [exDisjoint2] at h2
        subst h1; subst h2; decide)
    (by intro a1 a2 h1 h2
        simp [exDisjoint1] at h1
        simp [exDisjoint2] at h2
        subst h1; subst h2; decide)

/-! ## C9 -/

/-- C9: whenever `get_or_create_release_with_tracks` propagates an
exception — provider fetch, any artist get-or-create, the release-row
flush or the final commit faulting — the session is rolled back: the
committed catalog is unchanged and the pending state is reset to it. -/
theorem C9_failed_hydration_rolls_back (discogs_release_id : Nat)
    (env : HydrationEnv) (s : DbState) (e : String)
    (h : (get_or_create_release_with_tracks discogs_release_id env s).1
      = .error e) :
    (get_or_create_release_with_tracks discogs_release_id env s).2.committed
      = s.committed
    ∧ (get_or_create_release_with_tracks discogs_release_id env s).2.pending
      = s.committed := by
  unfold get_or_create_release_with_tracks at h ⊢
  rcases hf : s.pending.releases.find?
      (fun r => r.discogs_id == discogs_release_id) with _ | release
  · simp only [hf] at h ⊢
    rcases hb : buildNewRelease discogs_release_id env s.pending with e1 | pr
    · simp only [hb] at h ⊢
      exact ⟨trivial, trivial⟩
    · rcases hc : env.commit_fault with _ | msg
      · simp only [hb, hc] at h ⊢
        simp at h
      · simp only [hb, hc] at h ⊢
        exact ⟨trivial, trivial⟩
  · simp only [hf] at h ⊢
    simp at h

/-- C9, witness: a failing provider fetch over a clean session leaves the
catalog untouched and re-raises the exception. -/
theorem C9_witness :
    (get_or_create_release_with_tracks 7 exEnvFetchFails exEmptyDb).1
      = .error "boom"
    ∧ (get_or_create_release_with_tracks 7 exEnvFetchFails exEmptyDb).2.committed
      = exEmptyDb.committed
    ∧ (get_or_create_release_with_tracks 7 exEnvFetchFails exEmptyDb).2.pending
      = exEmptyDb.committed := by
  have h : (get_or_create_release_with_tracks 7 exEnvFetchFails exEmptyDb).1
      = .error "boom" := by rfl
  exact ⟨h,
    (C9_failed_hydration_rolls_back 7 exEnvFetchFails exEmptyDb "boom" h).1,
    (C9_failed_hydration_rolls_back 7 exEnvFetchFails exEmptyDb "boom" h).2⟩

/-! ## C2 -/

/-- Splitting an `IN (i :: rest)` filter, up to permutation, into the
`= i` rows and the `IN rest` rows, when `i` is not repeated in `rest`. -/
theorem filter_mem_cons_perm (catalog_tracks : List Track) (i : Nat)
    (rest : List Nat) (hi : i ∉ rest) :
    (catalog_tracks.filter (fun t => (i :: rest).contains t.release_id)).Perm
      (catalog_tracks.filter (fun t => t.release_id == i)
        ++ catalog_tracks.filter (fun t => rest.contains t.release_id)) := by
  have hsplit := List.filter_append_perm (fun t : Track => t.release_id == i)
    (catalog_tracks.filter (fun t => (i :: rest).contains t.release_id))
  have h1 : (catalog_tracks.filter
        (fun t => (i :: rest).contains t.release_id)).filter
        (fun t => t.release_id == i)
      = catalog_tracks.filter (fun t => t.release_id == i) := by
    rw [List.filter_filter]
    apply List.filter_congr
    intro x hx
    by_cases hxi : x.release_id = i
    · simp [hxi, List.contains_cons]
    · simp [hxi]
  have h2 : (catalog_tracks.filter
        (fun t => (i :: rest).contains t.release_id)).filter
        (fun t => !(t.release_id == i))
      = catalog_tracks.filter (fun t => rest.contains t.release_id) := by
    rw [List.filter_filter]
    apply List.filter_congr
    intro x hx
    by_cases hxi : x.release_id = i
    · subst hxi
      simp [hi]
    · simp [hxi, List.contains_cons]
  rw [h1, h2] at hsplit
  exact hsplit.symm

/-- C2 (amended): for distinct ranked release ids, the single
`IN`-filtered query of step 5 returns exactly the tracks of the ranked
releases — a permutation of the rank-grouped list §4.4 describes — but in
the track store's own order, not grouped by release rank. -/
theorem C2_extraction_perm (ranked_release_ids : List Nat)
    (catalog_tracks : List Track) (h : ranked_release_ids.Nodup) :
    (tracksForReleases catalog_tracks ranked_release_ids).Perm
      (specGroupedTracks ranked_release_ids catalog_tracks) := by
  induction ranked_release_ids with
  | nil => simp [tracksForReleases, specGroupedTracks]
  | cons i rest ih =>
    rw [List.nodup_cons] at h
    obtain ⟨hi, hrest⟩ := h
    have key := filter_mem_cons_perm catalog_tracks i rest hi
    simp only [tracksForReleases, specGroupedTracks, List.flatMap_cons] at *
    exact key.trans (List.Perm.append_left _ (ih hrest))

/-- C2, counterexample: with release 2's track stored before release 1's
and ranked ids `[1, 2]`, the extraction query returns release 2's track
first — not the rank-grouped order the claim states. -/
theorem C2_counterexample :
    tracksForReleases [exTrackB, exTrackA] [1, 2] = [exTrackB, exTrackA]
    ∧ specGroupedTracks [1, 2] [exTrackB, exTrackA] = [exTrackA, exTrackB]
    ∧ tracksForReleases [exTrackB, exTrackA] [1, 2]
      ≠ specGroupedTracks [1, 2] [exTrackB, exTrackA] := by
  decide

/-- C2, witness for the amended claim at the counterexample's input. -/
theorem C2_witness :
    (tracksForReleases [exTrackB, exTrackA] [1, 2]).Perm
      (specGroupedTracks [1, 2] [exTrackB, exTrackA]) :=
  C2_extraction_perm [1, 2] [exTrackB, exTrackA] (by decide)

/-! ## C6 -/

/-- Appending a fresh id keeps the candidate map's ids distinct. -/
theorem keys_nodup_append {m : List (Release × ℚ)} (r : Release) (s : ℚ)
    (hm : (m.map (fun rs => rs.1.id)).Nodup) (habs : candLookup m r.id = none) :
    ((m ++ [(r, s)]).map (fun rs => rs.1.id)).Nodup := by
  rw [List.map_append, List.nodup_append]
  refine ⟨hm, List.nodup_singleton _, ?_⟩
  intro a ha hb
  simp only [List.map_cons, List.map_nil, List.mem_singleton] at hb
  subst hb
  rw [List.mem_map] at ha
  obtain ⟨rs, hrs, hid⟩ := ha
  rw [candLookup, List.find?_eq_none] at habs
  exact habs rs hrs (by simp [hid])

/-- The Discogs-candidate loop preserves distinctness of the map's ids. -/
theorem addDiscogs_keys_nodup (base_release : Release)
    (fetched : List (Option Release)) :
    ∀ m : List (Release × ℚ), (m.map (fun rs => rs.1.id)).Nodup →
    ((addDiscogsCandidates base_release m fetched).map
      (fun rs => rs.1.id)).Nodup := by
  induction fetched with
  | nil => intro m hm; simpa [addDiscogsCandidates] using hm
  | cons o rest ih =>
    intro m hm
    cases o with
    | none => simp only [addDiscogsCandidates]; exact ih m hm
    | some r =>
      simp only [addDiscogsCandidates]
      split
      · next habs =>
        split
        · exact ih _ (keys_nodup_append r _ hm (Option.isNone_iff_eq_none.mp habs))
        · exact ih m hm
      · exact ih m hm

/-- The local-candidate loop preserves distinctness of the map's ids. -/
theorem addLocal_keys_nodup (cands : List (Release × ℚ)) :
    ∀ m : List (Release × ℚ), (m.map (fun rs => rs.1.id)).Nodup →
    ((addLocalCandidates m cands).map (fun rs => rs.1.id)).Nodup := by
  induction cands with
  | nil => intro m hm; simpa [addLocalCandidates] using hm
  | cons c rest ih =>
    intro m hm
    simp only [addLocalCandidates]
    split
    · next habs =>
      exact ih _ (keys_nodup_append c.1 c.2 hm (Option.isNone_iff_eq_none.mp habs))
    · exact ih m hm

/-- The ranking sort produces non-increasing scores. -/
theorem sortByScoreDesc_pairwise (l : List (Release × ℚ)) :
    (sortByScoreDesc l).Pairwise (fun a b => b.2 ≤ a.2) := by
  unfold sortByScoreDesc
  have h : List.Pairwise
      (fun a b : Release × ℚ => decide (b.2 ≤ a.2) = true)
      (l.mergeSort (fun a b => decide (b.2 ≤ a.2))) := by
    apply List.sorted_mergeSort
    · intro a b c hab hbc
      rw [decide_eq_true_eq] at *
      exact le_trans hbc hab
    · intro a b
      rw [Bool.or_eq_true, decide_eq_true_eq, decide_eq_true_eq]
      exact le_total b.2 a.2
  exact h.imp (fun hab => of_decide_eq_true hab)

/-- C6: the aggregator's final list has pairwise-distinct internal
release ids, non-increasing scores, and at most `limit` entries. -/
theorem C6_aggregator_output (base_release : Release)
    (fetched : List (Option Release)) (all_db_releases : List Release)
    (limit : Nat) :
    ((top_releases_with_scores base_release fetched all_db_releases limit).map
        (fun rs => rs.1.id)).Nodup
    ∧ (top_releases_with_scores base_release fetched all_db_releases
        limit).Pairwise (fun a b => b.2 ≤ a.2)
    ∧ (top_releases_with_scores base_release fetched all_db_releases
        limit).length ≤ limit := by
  have hkeys : ((mergedCandidateMap base_release fetched all_db_releases).map
      (fun rs => rs.1.id)).Nodup := by
    unfold mergedCandidateMap
    apply addLocal_keys_nodup
    split
    · exact addDiscogs_keys_nodup base_release fetched [] (by simp)
    · simp
  have hperm := List.mergeSort_perm
    (mergedCandidateMap base_release fetched all_db_releases)
    (fun a b => decide (b.2 ≤ a.2))
  have hsorted_keys : ((sortByScoreDesc
      (mergedCandidateMap base_release fetched all_db_releases)).map
        (fun rs => rs.1.id)).Nodup :=
    ((hperm.map (fun rs => rs.1.id)).symm).nodup hkeys
  refine ⟨?_, ?_, ?_⟩
  · have hsub : ((top_releases_with_scores base_release fetched all_db_releases
        limit).map (fun rs => rs.1.id)).Sublist
        ((sortByScoreDesc (mergedCandidateMap base_release fetched
          all_db_releases)).map (fun rs => rs.1.id)) := by
      unfold top_releases_with_scores
      rw [List.map_take]
      exact List.take_sublist _ _
    exact List.Nodup.sublist hsub hsorted_keys
  · exact List.Pairwise.sublist (List.take_sublist _ _)
      (sortByScoreDesc_pairwise _)
  · exact List.length_take_le _ _

/-! ## C5 -/

/-- Dict accumulation over tracks with pairwise-distinct ids and keys
fresh for the accumulator: lookups resolve first in the accumulator, then
by scanning the tracks. -/
theorem buildTrackMapAux_lookup (ts : List Track) (m : List (Nat × Track))
    (j : Nat)
    (hdisj : ∀ t ∈ ts, m.find? (fun kv => kv.1 == t.id) = none)
    (hnodup : (ts.map (fun t => t.id)).Nodup) :
    trackMapLookup (buildTrackMapAux m ts) j
      = (trackMapLookup m j).or (ts.find? (fun t => t.id == j)) := by
  induction ts generalizing m with
  | nil => simp [buildTrackMapAux]
  | cons t rest ih =>
    rw [List.map_cons, List.nodup_cons] at hnodup
    obtain ⟨hfresh, hnodup_rest⟩ := hnodup
    have hm_t : m.find? (fun kv => kv.1 == t.id) = none :=
      hdisj t (List.mem_cons_self t rest)
    have hins : dictInsert m t.id t = m ++ [(t.id, t)] := by
      rw [dictInsert, if_neg]
      simp [hm_t]
    have hdisj_rest : ∀ u ∈ rest,
        (m ++ [(t.id, t)]).find? (fun kv => kv.1 == u.id) = none := by
      intro u hu
      rw [List.find?_append, hdisj u (List.mem_cons_of_mem t hu)]
      have : t.id ≠ u.id := by
        intro heq
        exact hfresh (heq ▸ List.mem_map_of_mem (fun t => t.id) hu)
      simp [this]
    rw [buildTrackMapAux, hins, ih _ hdisj_rest hnodup_rest]
    have hm_app : trackMapLookup (m ++ [(t.id, t)]) j
        = (trackMapLookup m j).or
            (if t.id == j then some t else none) := by
      rw [trackMapLookup, List.find?_append]
      cases hmj : m.find? (fun kv => kv.1 == j) with
      | some kv => simp [trackMapLookup, hmj]
      | none =>
        simp only [trackMapLookup, hmj, Option.none_or]
        cases htj : (t.id == j) with
        | true => simp [List.find?_cons, htj]
        | false => simp [List.find?_cons, htj]
    rw [hm_app, Option.or_assoc]
    have hfind_cons : (if t.id == j then some t else none).or
        (rest.find? (fun u => u.id == j))
        = (t :: rest).find? (fun u => u.id == j) := by
      cases htj : (t.id == j) with
      | true => simp [List.find?_cons, htj]
      | false => simp [List.find?_cons, htj]
    rw [hfind_cons]

/-- With pairwise-distinct track ids, the dict build then lookup is a
plain scan of the track list. -/
theorem trackMap_resolves (ts : List Track) (j : Nat)
    (hnodup : (ts.map (fun t => t.id)).Nodup) :
    trackMapLookup (buildTrackMap ts) j = ts.find? (fun t => t.id == j) := by
  rw [buildTrackMap, buildTrackMapAux_lookup ts [] j (by simp) hnodup]
  simp [trackMapLookup]

/-- C5: `get_result` on a PENDING or RUNNING job yields the 422 "not
ready" error, a condition distinct from the 404 NotFound; on a COMPLETED
job (with pairwise-distinct catalog track ids, the primary-key invariant)
it returns the tracks resolved from the stored ids in exactly the stored
order, silently dropping any id that no longer resolves. -/
theorem C5_get_result (j : Job) (catalog_tracks : List Track) :
    ((j.status = .pending ∨ j.status = .running) →
      get_job_result_as_tracklist (some j) catalog_tracks
        = .error (.http422
            ("Job is not complete. Current status: " ++ statusText j.status ++ "."))
      ∧ ∀ d1 d2, ApiError.http422 d1 ≠ ApiError.http404 d2)
    ∧ (∀ track_ids, j.status = .completed →
        j.result = some (.trackIds track_ids) →
        (catalog_tracks.map (fun t => t.id)).Nodup →
        get_job_result_as_tracklist (some j) catalog_tracks
          = .ok (track_ids.filterMap
              (fun i => catalog_tracks.find? (fun t => t.id == i)))) := by
  constructor
  · intro h
    refine ⟨?_, by simp⟩
    rcases h with h | h <;> simp [get_job_result_as_tracklist, h]
  · intro track_ids hst hres hnodup
    by_cases hids : track_ids = []
    · simp [get_job_result_as_tracklist, hst, hres, hids]
    · have hsim_nodup : ((catalog_tracks.filter
          (fun t => track_ids.contains t.id)).map (fun t => t.id)).Nodup :=
        List.Nodup.sublist
          (List.Sublist.map _ (List.filter_sublist catalog_tracks)) hnodup
      have hpoint : ∀ i ∈ track_ids,
          trackMapLookup (buildTrackMap (catalog_tracks.filter
            (fun t => track_ids.contains t.id))) i
          = catalog_tracks.find? (fun t => t.id == i) := by
        intro i hi
        rw [trackMap_resolves _ i hsim_nodup, List.find?_filter]
        have hpred : (fun t : Track =>
            decide ((track_ids.contains t.id) = true ∧ (t.id == i) = true))
            = (fun t : Track => t.id == i) := by
          funext t
          cases hti : (t.id == i) with
          | true =>
            have heq : t.id = i := by simpa using hti
            subst heq
            simp [hi]
          | false => simp [hti]
        rw [hpred]
      simp only [get_job_result_as_tracklist, hst, hres]
      rw [if_neg (by simp)]
      rw [if_neg (by simpa [List.isEmpty_iff] using hids)]
      exact congrArg Except.ok (List.filterMap_congr hpoint)

/-- C5, witness: a RUNNING job reports "not ready"; the COMPLETED job
storing ids `[2, 1, 99]` over the catalog `[exTrackA, exTrackB]` resolves
to the tracks in stored-id order with the dangling id 99 dropped. -/
theorem C5_witness :
    get_job_result_as_tracklist (some { status := .running, result := none }) []
      = .error (.http422 "Job is not complete. Current status: running.")
    ∧ get_job_result_as_tracklist (some exDoneJob) [exTrackA, exTrackB]
      = .ok ([2, 1, 99].filterMap
          (fun i => [exTrackA, exTrackB].find? (fun t => t.id == i))) :=
  ⟨((C5_get_result { status := .running, result := none } []).1 (Or.inr rfl)).1,
   (C5_get_result exDoneJob [exTrackA, exTrackB]).2 [2, 1, 99] rfl rfl (by decide)⟩

end Spinly
